import Mathlib

/-!
Verification of `quality_checking/quality_check_functions.py`.

The module is orchestration glue over the Simpleware ScanIP scripting API
(`scanip_api3`, imported as `sip`).  Every function is a straight-line or
file-existence-branched sequence of host-API calls, so we embed each
function as a pure Lean function producing the list of host calls (the
trace) it issues.  The file system is modelled as an oracle
`fs : String → Bool` standing for `os.path.exists`.
-/

set_option autoImplicit false

namespace QualityCheck

/-- Slice orientation constants of the host (`sip.Doc.OrientationXY`, `sip.Doc.OrientationYZ`). -/
inductive Orientation where
  | XY
  | YZ
deriving DecidableEq, Repr

/-- One observable host call issued by the module.  `makeDirs` is the single
call that goes through Python's `os` module rather than the `sip` API; every
other constructor is a `sip` call. -/
inductive Event where
  | showMessage (msg : String)
  | importRawImage (path : String)
  | importBackgroundFromRawImage (path : String)
  | setBackgroundName (oldName newName : String)
  | copyBackgroundToMask
  | removeBackground (name : String)
  | activateMask (name : String)
  | setColour (r g b : Nat)
  | moveMaskTo (pos : Nat)
  | setVisible (v : Bool)
  | setMaskName (oldName newName : String)
  | duplicateMask
  | applyErodeFilter
  | applyIslandRemovalFilter (minSize : Nat)
  | applyDilateFilter
  | applyCloseFilter
  | replaceMaskUsingBooleanExpression (expr target : String) (orient : Orientation)
  | createMask (name : String) (r g b : Nat)
  | saveAs (path : String)
  | applyBinarisationFilter
  | rawExport (path : String)
  | closeDoc
  | makeDirs (path : String)
deriving DecidableEq, Repr

namespace Event

/-- Whether the call is made through the `sip` scripting API (everything but
`os.makedirs`). -/
def isSipCall : Event → Bool
  | .makeDirs _ => false
  | _ => true

/-- Recognizer for `SaveAs` calls. -/
def isSaveAs : Event → Bool
  | .saveAs _ => true
  | _ => false

/-- Recognizer for `ImportRawImage` calls (the T1 import). -/
def isImportRawImage : Event → Bool
  | .importRawImage _ => true
  | _ => false

/-- Recognizer for `os.makedirs` calls. -/
def isMakeDirs : Event → Bool
  | .makeDirs _ => true
  | _ => false

/-- Recognizer for `ReplaceMaskUsingBooleanExpression` calls. -/
def isReplaceMask : Event → Bool
  | .replaceMaskUsingBooleanExpression _ _ _ => true
  | _ => false

end Event

/-- `message_box(msg)`: display a dialogue box with a message. -/
def message_box (msg : String) : List Event :=
  [.showMessage msg]

/-- `verify_import()`. -/
def verify_import : List Event :=
  message_box "Quality check module imported successfully!"

/-- The mask-name list used throughout the module. -/
def masks : List String :=
  ["wm", "gm", "eyes", "csf", "air", "blood", "cancellous", "cortical", "skin", "fat", "muscle"]

/-- Aprinda's color dictionary. -/
def aprindaColorDict : List (String × (Nat × Nat × Nat)) :=
  [("air", (0, 128, 0)),
   ("blood", (0, 0, 255)),
   ("cancellous", (255, 0, 255)),
   ("cortical", (0, 255, 0)),
   ("csf", (128, 0, 255)),
   ("eyes", (0, 128, 255)),
   ("fat", (246, 240, 202)),
   ("gm", (255, 128, 0)),
   ("muscle", (255, 64, 64)),
   ("skin", (0, 255, 255)),
   ("wm", (255, 128, 192))]

/-- Sam's color dictionary (also the fallback for unrecognized palettes). -/
def samColorDict : List (String × (Nat × Nat × Nat)) :=
  [("air", (65, 65, 65)),
   ("blood", (200, 0, 0)),
   ("cancellous", (22, 167, 11)),
   ("cortical", (0, 255, 0)),
   ("csf", (107, 220, 220)),
   ("eyes", (194, 230, 230)),
   ("fat", (239, 217, 151)),
   ("gm", (176, 176, 176)),
   ("muscle", (255, 64, 64)),
   ("skin", (140, 120, 83)),
   ("wm", (207, 221, 220))]

/-- The order dictionary of `colors_order_visibility`. -/
def order_dict : List (String × Nat) :=
  [("air", 7),
   ("blood", 6),
   ("cancellous", 5),
   ("cortical", 4),
   ("csf", 8),
   ("eyes", 9),
   ("fat", 2),
   ("gm", 10),
   ("muscle", 1),
   ("skin", 3),
   ("wm", 11)]

/-- Dictionary lookup.  The Python code indexes the dicts directly; every key
used is present, so the default is never reached. -/
def dictGet {α : Type} (d : List (String × α)) (k : String) (dflt : α) : α :=
  match d.find? (fun p => p.1 == k) with
  | some p => p.2
  | none => dflt

/-- The unrecognized-palette message of `colors_order_visibility`. -/
def unrecognizedPaletteMsg : String :=
  "Color palette designation not recognized. Please indicate \"Aprinda\" or \"Sam\". Continuing with Sam\x27s palette."

/-- The per-mask body of the `for mask in masks` loop of
`colors_order_visibility`: activate, set colour, move to order, set visible. -/
def colorsOrderLoop (color_dict : List (String × (Nat × Nat × Nat))) :
    List String → List Event
  | [] => []
  | mask :: rest =>
    let color := dictGet color_dict mask (0, 0, 0)
    let order := dictGet order_dict mask 0
    [.activateMask mask,
     .setColour color.1 color.2.1 color.2.2,
     .moveMaskTo order,
     .setVisible true] ++ colorsOrderLoop color_dict rest

/-- `colors_order_visibility(color_palette)`: choose the palette (with a
message and Sam-fallback for unrecognized designations), then for each of the
11 masks set colour, z-order and visibility. -/
def colors_order_visibility (color_palette : String) : List Event :=
  if color_palette = "Aprinda" then
    colorsOrderLoop aprindaColorDict masks
  else if color_palette = "Sam" then
    colorsOrderLoop samColorDict masks
  else
    message_box unrecognizedPaletteMsg ++ colorsOrderLoop samColorDict masks

/-- `remove_overlap()`: the fixed tissue-priority sequence of boolean
mask-replacement calls. -/
def remove_overlap : List Event :=
  [.replaceMaskUsingBooleanExpression "(gm MINUS wm)" "gm" .XY,
   .replaceMaskUsingBooleanExpression "(wm MINUS eyes MINUS csf)" "wm" .XY,
   .replaceMaskUsingBooleanExpression "(air MINUS wm MINUS gm MINUS csf MINUS blood MINUS skin)" "air" .XY,
   .replaceMaskUsingBooleanExpression "(blood MINUS wm MINUS gm MINUS eyes MINUS skin)" "blood" .XY,
   .replaceMaskUsingBooleanExpression "(cortical MINUS wm MINUS gm MINUS air MINUS eyes MINUS blood)" "cortical" .XY,
   .replaceMaskUsingBooleanExpression "(cancellous MINUS wm MINUS gm MINUS air MINUS eyes MINUS blood)" "cancellous" .XY,
   .replaceMaskUsingBooleanExpression "(cortical MINUS skin MINUS cancellous MINUS csf)" "cortical" .XY,
   .replaceMaskUsingBooleanExpression "(cancellous MINUS skin MINUS csf)" "cancellous" .XY,
   .replaceMaskUsingBooleanExpression "(fat MINUS skin MINUS wm MINUS gm MINUS eyes MINUS air MINUS blood MINUS cortical MINUS cancellous MINUS csf)" "fat" .XY,
   .replaceMaskUsingBooleanExpression "(muscle MINUS skin MINUS wm MINUS gm MINUS eyes MINUS air MINUS blood MINUS cortical MINUS cancellous MINUS csf MINUS fat)" "muscle" .XY,
   .replaceMaskUsingBooleanExpression "(eyes MINUS skin)" "eyes" .XY,
   .replaceMaskUsingBooleanExpression "(csf MINUS eyes)" "csf" .XY]

/-- The first mask named in a boolean expression such as
`"(gm MINUS wm)"`: the token after the opening parenthesis. -/
def firstMaskTok (s : String) : String :=
  String.mk ((s.data.drop 1).takeWhile (fun c => c != ' ' && c != ')'))

/-- An event is a boolean mask replacement targeting the mask named first in
its own expression. -/
def targetsFirstMask : Event → Bool
  | .replaceMaskUsingBooleanExpression expr target _ => target == firstMaskTok expr
  | _ => false

/-- `import_mask(mask, location)`: import `location + mask + ".raw"` as a
background image, rename it to `mask_old`, copy it into a mask, delete the
background. -/
def import_mask (mask location : String) : List Event :=
  [.importBackgroundFromRawImage (location ++ mask ++ ".raw"),
   .setBackgroundName "Raw import [W:0.00 L:0.00]" (mask ++ "_old"),
   .copyBackgroundToMask,
   .removeBackground (mask ++ "_old")]

/-- `bone_patching()`: the fixed bone pre-processing sequence (duplicate,
erode, island-removal, dilate, boolean combinations, close). -/
def bone_patching : List Event :=
  [.activateMask "bone",
   .duplicateMask,
   .setMaskName "Copy of bone" "unpatched_bone_regions",
   .activateMask "unpatched_bone_regions",
   .applyErodeFilter,
   .applyIslandRemovalFilter 15,
   .applyDilateFilter,
   .replaceMaskUsingBooleanExpression "(unpatched_bone_regions AND bone)" "unpatched_bone_regions" .XY,
   .activateMask "bone",
   .duplicateMask,
   .activateMask "Copy of bone",
   .setMaskName "Copy of bone" "patched_bone_regions_raw",
   .replaceMaskUsingBooleanExpression "(patched_bone_regions_raw MINUS unpatched_bone_regions)" "patched_bone_regions_raw" .XY,
   .activateMask "patched_bone_regions_raw",
   .applyIslandRemovalFilter 15,
   .duplicateMask,
   .activateMask "Copy of patched_bone_regions_raw",
   .setMaskName "Copy of patched_bone_regions_raw" "patched_bone_regions_corrected",
   .applyCloseFilter,
   .applyDilateFilter,
   .replaceMaskUsingBooleanExpression "(patched_bone_regions_corrected MINUS wm)" "patched_bone_regions_corrected" .XY,
   .replaceMaskUsingBooleanExpression "(patched_bone_regions_corrected MINUS gm)" "patched_bone_regions_corrected" .XY,
   .replaceMaskUsingBooleanExpression "(patched_bone_regions_corrected MINUS csf)" "patched_bone_regions_corrected" .XY,
   .activateMask "patched_bone_regions_corrected",
   .duplicateMask,
   .activateMask "Copy of patched_bone_regions_corrected",
   .setMaskName "Copy of patched_bone_regions_corrected" "patched_bone",
   .replaceMaskUsingBooleanExpression "(patched_bone OR bone)" "patched_bone" .YZ]

/-- `participant_folder = f"{folder_location}FS6.0_sub-{str(participant_id)}_ses01\\"`. -/
def participantFolder (participant_id : Nat) (folder_location : String) : String :=
  folder_location ++ "FS6.0_sub-" ++ toString participant_id ++ "_ses01\\"

/-- T1 naming structure, option 1: `FS6.0_sub-{participant_id}_ses01_T1_rs.RAW`. -/
def t1Name1 (participant_id : Nat) : String :=
  "FS6.0_sub-" ++ toString participant_id ++ "_ses01_T1_rs.RAW"

/-- T1 naming structure, option 2. -/
def t1Name2 : String :=
  "T1.RAW"

/-- The `for name in t1_names` search loop of `generate_base_file`: the first
naming option that exists in the participant folder, else `none` (`t1` stays
`None` in the Python code; the found path is a nonempty string, so Python's
`if not t1:` coincides with the `none` test). -/
def findT1 (folder : String) (fs : String → Bool) : List String → Option String
  | [] => none
  | name :: rest =>
    if fs (folder ++ name) then some (folder ++ name) else findT1 folder fs rest

/-- The tissue-mask import loop of `generate_base_file`: each mask is imported
from `mask_location`, the background renamed to the mask name, copied into a
mask and the background removed. -/
def tissueImportLoop (mask_location : String) : List String → List Event
  | [] => []
  | mask :: rest =>
    [.importBackgroundFromRawImage (mask_location ++ mask ++ ".raw"),
     .setBackgroundName "Raw import [W:0.00 L:0.00]" mask,
     .copyBackgroundToMask,
     .removeBackground mask] ++ tissueImportLoop mask_location rest

/-- The uniform-availability check of `generate_base_file`: prefer
`Binarized_masks\final\uniform.raw`, then `Binarized_masks\uniform.raw`, else
`(False, "NONE")`. -/
def uniformLookup (participant_folder : String) (fs : String → Bool) : Bool × String :=
  if fs (participant_folder ++ "Binarized_masks\\final\\uniform.raw") then
    (true, participant_folder ++ "Binarized_masks\\final\\")
  else if fs (participant_folder ++ "Binarized_masks\\uniform.raw") then
    (true, participant_folder ++ "Binarized_masks\\")
  else
    (false, "NONE")

/-- The bone-availability check of `generate_base_file`: prefer
`Binarized_masks\final\bone.raw`, then `Binarized_masks\bone.raw`, else
`(False, "NONE")`. -/
def boneLookup (participant_folder : String) (fs : String → Bool) : Bool × String :=
  if fs (participant_folder ++ "Binarized_masks\\final\\bone.raw") then
    (true, participant_folder ++ "Binarized_masks\\final\\")
  else if fs (participant_folder ++ "Binarized_masks\\bone.raw") then
    (true, participant_folder ++ "Binarized_masks\\")
  else
    (false, "NONE")

/-- The mask-reorganization block run when both bone and uniform were
imported: divider masks and `MoveMaskTo` repositioning. -/
def reorganizeBlock : List Event :=
  [.createMask "---" 0 255 63,
   .activateMask "patched_bone_regions_corrected",
   .moveMaskTo 17,
   .activateMask "patched_bone_regions_raw",
   .moveMaskTo 16,
   .activateMask "unpatched_bone_regions",
   .moveMaskTo 15,
   .createMask "----" 0 159 255,
   .activateMask "patched_bone",
   .moveMaskTo 18,
   .activateMask "bone",
   .moveMaskTo 17,
   .activateMask "uniform",
   .moveMaskTo 16,
   .activateMask "---",
   .moveMaskTo 12,
   .activateMask "----",
   .moveMaskTo 16]

/-- The final notification message of `generate_base_file`, chosen by the
`import_uniform` / `import_bone` if-chain. -/
def finalMessage (import_uniform import_bone : Bool) (participant_id : Nat) : String :=
  if !import_uniform && !import_bone then
    "Could not find files for either uniform or bone masks."
  else if !import_uniform && import_bone then
    "Bone imported but uniform could not be located."
  else if !import_bone && import_uniform then
    "Uniform imported but bone could not be located."
  else
    toString participant_id ++ "_base.sip successfully generated. Uniform and pre-patched bone included."

/-- `generate_base_file(participant_id, folder_location)`: search for a RAW
T1 (message and stop if absent), import it, import the 11 tissue masks, set
colors/order/visibility with Sam's palette, conditionally import uniform and
bone (running `bone_patching` and, when uniform is also present, the
reorganization block), save the base `.sip` file, then notify the user. -/
def generate_base_file (participant_id : Nat) (folder_location : String)
    (fs : String → Bool) : List Event :=
  let participant_folder := participantFolder participant_id folder_location
  match findT1 participant_folder fs [t1Name1 participant_id, t1Name2] with
  | none => message_box "No RAW T1 scan found."
  | some t1 =>
    let mask_location := participant_folder ++ "Binarized_masks\\idv_mask\\"
    let u := uniformLookup participant_folder fs
    let b := boneLookup participant_folder fs
    let qc_save := participant_folder ++ "qualityCheck\\sipFiles\\" ++ toString participant_id ++ "_base.sip"
    [.importRawImage t1,
     .setBackgroundName "Raw import [W:0.00 L:0.00]" (toString participant_id ++ "_T1")]
    ++ tissueImportLoop mask_location masks
    ++ colors_order_visibility "Sam"
    ++ (if u.1 then
          import_mask "uniform" u.2 ++ [.setMaskName "uniform_old" "uniform"]
        else [])
    ++ (if b.1 then
          import_mask "bone" b.2 ++ [.setMaskName "bone_old" "bone"]
          ++ bone_patching
          ++ (if u.1 then reorganizeBlock else [])
        else [])
    ++ [.saveAs qc_save]
    ++ message_box (finalMessage u.1 b.1 participant_id)

/-- `participantFolder` of `finalize_sip_file`:
`f"{folder_location}FS6.0_sub-{participant_id}_ses01\\qualityCheck\\"`. -/
def participantFolderQC (participant_id : Nat) (folder_location : String) : String :=
  folder_location ++ "FS6.0_sub-" ++ toString participant_id ++ "_ses01\\qualityCheck\\"

/-- `exportLocation = f"{participantFolder}tissueMasks\\"`. -/
def exportLocation (participant_id : Nat) (folder_location : String) : String :=
  participantFolderQC participant_id folder_location ++ "tissueMasks\\"

/-- The binarize-and-export loop of `finalize_sip_file`. -/
def exportLoop (export_location : String) : List String → List Event
  | [] => []
  | mask :: rest =>
    [.activateMask mask,
     .applyBinarisationFilter,
     .rawExport (export_location ++ mask ++ ".raw")] ++ exportLoop export_location rest

/-- `finalize_sip_file(participant_id, folder_location, check_stage)`: create
the `tissueMasks` export directory if absent, standardize colors and order
with Aprinda's palette, remove overlap, binarize and export the 11 tissue
masks, and save the `.sip` file as `{participant_id}_QC{check_stage}.sip`. -/
def finalize_sip_file (participant_id : Nat) (folder_location : String)
    (check_stage : Nat) (fs : String → Bool) : List Event :=
  let participant_folder_qc := participantFolderQC participant_id folder_location
  let export_location := exportLocation participant_id folder_location
  (if fs export_location then [] else [.makeDirs export_location])
  ++ colors_order_visibility "Aprinda"
  ++ remove_overlap
  ++ exportLoop export_location masks
  ++ [.saveAs (participant_folder_qc ++ "sipFiles\\" ++ toString participant_id ++ "_QC" ++ toString check_stage ++ ".sip")]

/-- `stop_start_visual_checks(current_participant, next_participant,
folder_location)`: save and close the current file, then generate the next
participant's base file. -/
def stop_start_visual_checks (current_participant next_participant : Nat)
    (folder_location : String) (fs : String → Bool) : List Event :=
  [.saveAs (participantFolderQC current_participant folder_location
            ++ "sipFiles\\" ++ toString current_participant ++ "_base.sip"),
   .closeDoc]
  ++ generate_base_file next_participant folder_location fs

/-! ### A small interpreter for the mask attributes touched by
`colors_order_visibility`.

The host keeps an active generic mask; `SetColour`, `MoveMaskTo` and
`SetVisible` act on it.  We replay a trace against a document state recording,
per mask name, the last colour, z-order position and visibility set. -/

/-- The attributes of one mask that the colour/order/visibility calls touch. -/
structure MaskAttrs where
  colour : Option (Nat × Nat × Nat)
  order : Option Nat
  visible : Option Bool
deriving DecidableEq, Repr

/-- Document state: the active mask and the recorded attributes per mask. -/
structure DocState where
  active : Option String
  attrs : List (String × MaskAttrs)
deriving DecidableEq, Repr

/-- The empty document state. -/
def initialDoc : DocState := ⟨none, []⟩

/-- Update the attribute record of mask `k` (inserting it if absent). -/
def setAttr (l : List (String × MaskAttrs)) (k : String)
    (f : MaskAttrs → MaskAttrs) : List (String × MaskAttrs) :=
  match l with
  | [] => [(k, f ⟨none, none, none⟩)]
  | (k2, a) :: rest => if k2 == k then (k2, f a) :: rest else (k2, a) :: setAttr rest k f

/-- Apply an attribute update to the active mask, if any. -/
def applyActive (s : DocState) (f : MaskAttrs → MaskAttrs) : DocState :=
  match s.active with
  | some n => ⟨s.active, setAttr s.attrs n f⟩
  | none => s

/-- One step of the interpreter. -/
def stepEvent (s : DocState) (e : Event) : DocState :=
  match e with
  | .activateMask n => ⟨some n, s.attrs⟩
  | .setColour r g b => applyActive s (fun a => ⟨some (r, g, b), a.order, a.visible⟩)
  | .moveMaskTo p => applyActive s (fun a => ⟨a.colour, some p, a.visible⟩)
  | .setVisible v => applyActive s (fun a => ⟨a.colour, a.order, some v⟩)
  | _ => s

/-- Replay a trace from a document state. -/
def runEvents (es : List Event) (s : DocState) : DocState :=
  es.foldl stepEvent s

/-- The recorded attributes of mask `m` after a run. -/
def attrOf (s : DocState) (m : String) : MaskAttrs :=
  dictGet s.attrs m ⟨none, none, none⟩

/-- The z-order dictionary as the specification states it: muscle 1, fat 2,
skin 3, cortical 4, cancellous 5, blood 6, air 7, csf 8, eyes 9, gm 10,
wm 11. -/
def specZOrder : List (String × Nat) :=
  [("muscle", 1),
   ("fat", 2),
   ("skin", 3),
   ("cortical", 4),
   ("cancellous", 5),
   ("blood", 6),
   ("air", 7),
   ("csf", 8),
   ("eyes", 9),
   ("gm", 10),
   ("wm", 11)]

/-- Every call of a trace goes through the `sip` scripting API. -/
def AllSip (l : List Event) : Prop :=
  ∀ e ∈ l, e.isSipCall = true

/-! ### Theorems -/

/-- Claim C1: `remove_overlap` issues exactly 12
`ReplaceMaskUsingBooleanExpression` calls, in the fixed tissue-priority order
gm, wm, air, blood, cortical, cancellous, cortical, cancellous, fat, muscle,
eyes, csf; each call targets the mask named first in its expression, and the
trace contains no other host call. -/
theorem remove_overlap_priority_sequence :
    (remove_overlap.map (fun e =>
        match e with
        | .replaceMaskUsingBooleanExpression expr _ _ => some expr
        | _ => none)
      = [some "(gm MINUS wm)",
         some "(wm MINUS eyes MINUS csf)",
         some "(air MINUS wm MINUS gm MINUS csf MINUS blood MINUS skin)",
         some "(blood MINUS wm MINUS gm MINUS eyes MINUS skin)",
         some "(cortical MINUS wm MINUS gm MINUS air MINUS eyes MINUS blood)",
         some "(cancellous MINUS wm MINUS gm MINUS air MINUS eyes MINUS blood)",
         some "(cortical MINUS skin MINUS cancellous MINUS csf)",
         some "(cancellous MINUS skin MINUS csf)",
         some "(fat MINUS skin MINUS wm MINUS gm MINUS eyes MINUS air MINUS blood MINUS cortical MINUS cancellous MINUS csf)",
         some "(muscle MINUS skin MINUS wm MINUS gm MINUS eyes MINUS air MINUS blood MINUS cortical MINUS cancellous MINUS csf MINUS fat)",
         some "(eyes MINUS skin)",
         some "(csf MINUS eyes)"])
    ∧ remove_overlap.length = 12
    ∧ (∀ e ∈ remove_overlap, targetsFirstMask e = true) := by
  refine ⟨rfl, rfl, ?_⟩
  decide

/-- Witness for C1 at the first call of the sequence. -/
theorem remove_overlap_priority_sequence_witness :
    targetsFirstMask (Event.replaceMaskUsingBooleanExpression "(gm MINUS wm)" "gm" Orientation.XY)
      = true :=
  remove_overlap_priority_sequence.2.2
    (Event.replaceMaskUsingBooleanExpression "(gm MINUS wm)" "gm" Orientation.XY) (by decide)

/-- Claim C2: when neither T1 naming option exists in the participant folder,
`generate_base_file` only displays "No RAW T1 scan found." and issues no
other host call. -/
theorem generate_base_file_no_t1 (participant_id : Nat) (folder_location : String)
    (fs : String → Bool)
    (h1 : fs (participantFolder participant_id folder_location ++ t1Name1 participant_id) = false)
    (h2 : fs (participantFolder participant_id folder_location ++ t1Name2) = false) :
    generate_base_file participant_id folder_location fs
      = [.showMessage "No RAW T1 scan found."] := by
  simp [generate_base_file, findT1, h1, h2, message_box]

/-- Witness for C2 at a concrete participant and an empty file system. -/
theorem generate_base_file_no_t1_witness :
    generate_base_file 999999 "C:\\data\\" (fun _ => false)
      = [.showMessage "No RAW T1 scan found."] :=
  generate_base_file_no_t1 999999 "C:\\data\\" (fun _ => false) rfl rfl

/-- Claim C3: for any unrecognized palette designation,
`colors_order_visibility` first shows the unrecognized-palette message and
then behaves exactly as a call with Sam's palette. -/
theorem colors_order_visibility_unrecognized (color_palette : String)
    (h1 : color_palette ≠ "Aprinda") (h2 : color_palette ≠ "Sam") :
    colors_order_visibility color_palette
      = .showMessage unrecognizedPaletteMsg :: colors_order_visibility "Sam" := by
  simp [colors_order_visibility, h1, h2, message_box]

/-- Witness for C3 at the concrete designation "foo". -/
theorem colors_order_visibility_unrecognized_witness :
    colors_order_visibility "foo"
      = .showMessage unrecognizedPaletteMsg :: colors_order_visibility "Sam" :=
  colors_order_visibility_unrecognized "foo" (by decide) (by decide)

/-- Claim C7: for each recognized palette, replaying the trace of
`colors_order_visibility` leaves every one of the 11 masks with the colour
looked up in that palette's dictionary, the z-order of the one
palette-independent order dictionary (muscle 1, fat 2, skin 3, cortical 4,
cancellous 5, blood 6, air 7, csf 8, eyes 9, gm 10, wm 11), and visibility
set to true. -/
theorem colors_order_visibility_recognized (color_palette : String)
    (hp : color_palette = "Aprinda" ∨ color_palette = "Sam") :
    ∀ m ∈ masks,
      attrOf (runEvents (colors_order_visibility color_palette) initialDoc) m
        = ⟨some (dictGet (if color_palette = "Aprinda" then aprindaColorDict else samColorDict) m (0, 0, 0)),
           some (dictGet specZOrder m 0),
           some true⟩ := by
  rcases hp with h | h <;> subst h <;> decide

/-- Witness for C7: Sam's palette, mask "wm". -/
theorem colors_order_visibility_recognized_witness :
    attrOf (runEvents (colors_order_visibility "Sam") initialDoc) "wm"
      = ⟨some (dictGet (if ("Sam" : String) = "Aprinda" then aprindaColorDict else samColorDict) "wm" (0, 0, 0)),
         some (dictGet specZOrder "wm" 0),
         some true⟩ :=
  colors_order_visibility_recognized "Sam" (Or.inr rfl) "wm" (by decide)

/-! Helper lemmas: the auxiliary blocks issue no `SaveAs`, no
`ImportRawImage` and no `os.makedirs` call. -/

theorem tissueImportLoop_no_saveAs (l : String) (ms : List String) :
    (tissueImportLoop l ms).filter Event.isSaveAs = [] := by
  induction ms with
  | nil => rfl
  | cons m rest ih => simp [tissueImportLoop, Event.isSaveAs, ih]

theorem tissueImportLoop_no_importRaw (l : String) (ms : List String) :
    (tissueImportLoop l ms).filter Event.isImportRawImage = [] := by
  induction ms with
  | nil => rfl
  | cons m rest ih => simp [tissueImportLoop, Event.isImportRawImage, ih]

theorem exportLoop_no_saveAs (l : String) (ms : List String) :
    (exportLoop l ms).filter Event.isSaveAs = [] := by
  induction ms with
  | nil => rfl
  | cons m rest ih => simp [exportLoop, Event.isSaveAs, ih]

theorem exportLoop_no_makeDirs (l : String) (ms : List String) :
    (exportLoop l ms).filter Event.isMakeDirs = [] := by
  induction ms with
  | nil => rfl
  | cons m rest ih => simp [exportLoop, Event.isMakeDirs, ih]

theorem import_mask_no_saveAs (m l : String) :
    (import_mask m l).filter Event.isSaveAs = [] := by
  simp [import_mask, Event.isSaveAs]

theorem import_mask_no_importRaw (m l : String) :
    (import_mask m l).filter Event.isImportRawImage = [] := by
  simp [import_mask, Event.isImportRawImage]

theorem colors_sam_no_saveAs :
    (colors_order_visibility "Sam").filter Event.isSaveAs = [] := by decide

theorem colors_sam_no_importRaw :
    (colors_order_visibility "Sam").filter Event.isImportRawImage = [] := by decide

theorem colors_aprinda_no_saveAs :
    (colors_order_visibility "Aprinda").filter Event.isSaveAs = [] := by decide

theorem colors_aprinda_no_makeDirs :
    (colors_order_visibility "Aprinda").filter Event.isMakeDirs = [] := by decide

theorem bone_patching_no_saveAs :
    bone_patching.filter Event.isSaveAs = [] := by decide

theorem bone_patching_no_importRaw :
    bone_patching.filter Event.isImportRawImage = [] := by decide

theorem remove_overlap_no_saveAs :
    remove_overlap.filter Event.isSaveAs = [] := by decide

theorem remove_overlap_no_makeDirs :
    remove_overlap.filter Event.isMakeDirs = [] := by decide

theorem reorganizeBlock_no_saveAs :
    reorganizeBlock.filter Event.isSaveAs = [] := by decide

theorem reorganizeBlock_no_importRaw :
    reorganizeBlock.filter Event.isImportRawImage = [] := by decide

/-- When at least one T1 naming option exists, the search loop finds one. -/
theorem findT1_some (participant_id : Nat) (folder_location : String)
    (fs : String → Bool)
    (hT1 : fs (participantFolder participant_id folder_location ++ t1Name1 participant_id) = true
         ∨ fs (participantFolder participant_id folder_location ++ t1Name2) = true) :
    ∃ t, findT1 (participantFolder participant_id folder_location) fs
           [t1Name1 participant_id, t1Name2] = some t := by
  cases h1 : fs (participantFolder participant_id folder_location ++ t1Name1 participant_id) with
  | true =>
    exact ⟨participantFolder participant_id folder_location ++ t1Name1 participant_id,
           by simp [findT1, h1]⟩
  | false =>
    rcases hT1 with h | h
    · simp [h1] at h
    · exact ⟨participantFolder participant_id folder_location ++ t1Name2,
             by simp [findT1, h1, h]⟩

/-- Claim C6: with a T1 present, `generate_base_file` saves exactly once, to
`{folder_location}FS6.0_sub-{participant_id}_ses01\qualityCheck\sipFiles\{participant_id}_base.sip`,
and `finalize_sip_file` saves exactly once, to
`{folder_location}FS6.0_sub-{participant_id}_ses01\qualityCheck\sipFiles\{participant_id}_QC{check_stage}.sip`. -/
theorem base_and_qc_save_paths (participant_id : Nat) (folder_location : String)
    (check_stage : Nat) (fs : String → Bool)
    (hT1 : fs (participantFolder participant_id folder_location ++ t1Name1 participant_id) = true
         ∨ fs (participantFolder participant_id folder_location ++ t1Name2) = true) :
    (generate_base_file participant_id folder_location fs).filter Event.isSaveAs
      = [.saveAs (participantFolder participant_id folder_location
           ++ "qualityCheck\\sipFiles\\" ++ toString participant_id ++ "_base.sip")]
    ∧ (finalize_sip_file participant_id folder_location check_stage fs).filter Event.isSaveAs
      = [.saveAs (participantFolderQC participant_id folder_location
           ++ "sipFiles\\" ++ toString participant_id ++ "_QC" ++ toString check_stage ++ ".sip")] := by
  constructor
  · obtain ⟨t1, ht1⟩ := findT1_some _ _ _ hT1
    cases hu : (uniformLookup (participantFolder participant_id folder_location) fs).1 <;>
    cases hb : (boneLookup (participantFolder participant_id folder_location) fs).1 <;>
      simp [generate_base_file, ht1, hu, hb, List.filter_append, message_box,
            tissueImportLoop_no_saveAs, colors_sam_no_saveAs, import_mask_no_saveAs,
            bone_patching_no_saveAs, reorganizeBlock_no_saveAs, Event.isSaveAs]
  · cases hex : fs (exportLocation participant_id folder_location) <;>
      simp [finalize_sip_file, hex, List.filter_append, colors_aprinda_no_saveAs,
            remove_overlap_no_saveAs, exportLoop_no_saveAs, Event.isSaveAs]

/-- Witness for C6 at a concrete participant with every file present. -/
theorem base_and_qc_save_paths_witness :
    (generate_base_file 123456 "D:\\" (fun _ => true)).filter Event.isSaveAs
      = [.saveAs (participantFolder 123456 "D:\\"
           ++ "qualityCheck\\sipFiles\\" ++ toString 123456 ++ "_base.sip")]
    ∧ (finalize_sip_file 123456 "D:\\" 1 (fun _ => true)).filter Event.isSaveAs
      = [.saveAs (participantFolderQC 123456 "D:\\"
           ++ "sipFiles\\" ++ toString 123456 ++ "_QC" ++ toString 1 ++ ".sip")] :=
  base_and_qc_save_paths 123456 "D:\\" 1 (fun _ => true) (Or.inl rfl)

/-- The two T1 naming options denote different paths. -/
theorem t1_paths_distinct (participant_id : Nat) (folder_location : String) :
    participantFolder participant_id folder_location ++ t1Name1 participant_id
      ≠ participantFolder participant_id folder_location ++ t1Name2 := by
  intro h
  have hlen := congrArg String.length h
  simp only [String.length_append, t1Name1, t1Name2] at hlen
  have h1 : ("FS6.0_sub-" : String).length = 10 := rfl
  have h2 : ("_ses01_T1_rs.RAW" : String).length = 16 := rfl
  have h3 : ("T1.RAW" : String).length = 6 := rfl
  omega

/-- Claim C9: the T1 search prefers the resampled naming convention: whenever
`FS6.0_sub-{participant_id}_ses01_T1_rs.RAW` exists it is the file imported
(in particular when both exist), and `T1.RAW` is imported only when the
resampled file does not exist. -/
theorem t1_resampled_preference (participant_id : Nat) (folder_location : String)
    (fs : String → Bool) :
    (fs (participantFolder participant_id folder_location ++ t1Name1 participant_id) = true →
       (generate_base_file participant_id folder_location fs).filter Event.isImportRawImage
         = [.importRawImage (participantFolder participant_id folder_location ++ t1Name1 participant_id)]
       ∧ participantFolder participant_id folder_location ++ t1Name1 participant_id
           ≠ participantFolder participant_id folder_location ++ t1Name2)
    ∧ (fs (participantFolder participant_id folder_location ++ t1Name1 participant_id) = false →
       fs (participantFolder participant_id folder_location ++ t1Name2) = true →
       (generate_base_file participant_id folder_location fs).filter Event.isImportRawImage
         = [.importRawImage (participantFolder participant_id folder_location ++ t1Name2)]) := by
  constructor
  · intro h1
    refine ⟨?_, t1_paths_distinct participant_id folder_location⟩
    have ht1 : findT1 (participantFolder participant_id folder_location) fs
        [t1Name1 participant_id, t1Name2]
        = some (participantFolder participant_id folder_location ++ t1Name1 participant_id) := by
      simp [findT1, h1]
    cases hu : (uniformLookup (participantFolder participant_id folder_location) fs).1 <;>
    cases hb : (boneLookup (participantFolder participant_id folder_location) fs).1 <;>
      simp [generate_base_file, ht1, hu, hb, List.filter_append, message_box,
            tissueImportLoop_no_importRaw, colors_sam_no_importRaw, import_mask_no_importRaw,
            bone_patching_no_importRaw, reorganizeBlock_no_importRaw, Event.isImportRawImage]
  · intro h1 h2
    have ht1 : findT1 (participantFolder participant_id folder_location) fs
        [t1Name1 participant_id, t1Name2]
        = some (participantFolder participant_id folder_location ++ t1Name2) := by
      simp [findT1, h1, h2]
    cases hu : (uniformLookup (participantFolder participant_id folder_location) fs).1 <;>
    cases hb : (boneLookup (participantFolder participant_id folder_location) fs).1 <;>
      simp [generate_base_file, ht1, hu, hb, List.filter_append, message_box,
            tissueImportLoop_no_importRaw, colors_sam_no_importRaw, import_mask_no_importRaw,
            bone_patching_no_importRaw, reorganizeBlock_no_importRaw, Event.isImportRawImage]

/-- Witness for C9: with both naming options present, the resampled file is
the one imported. -/
theorem t1_resampled_preference_witness :
    (generate_base_file 999999 "C:\\" (fun _ => true)).filter Event.isImportRawImage
      = [.importRawImage (participantFolder 999999 "C:\\" ++ t1Name1 999999)]
    ∧ participantFolder 999999 "C:\\" ++ t1Name1 999999
        ≠ participantFolder 999999 "C:\\" ++ t1Name2 :=
  (t1_resampled_preference 999999 "C:\\" (fun _ => true)).1 rfl

/-- Each mask's export call is in the export loop. -/
theorem mem_exportLoop (l m : String) (ms : List String) (hm : m ∈ ms) :
    Event.rawExport (l ++ m ++ ".raw") ∈ exportLoop l ms := by
  induction ms with
  | nil => cases hm
  | cons a rest ih =>
    rcases List.mem_cons.mp hm with h | h
    · subst h; simp [exportLoop]
    · simp [exportLoop, ih h]

/-- Claim C10: `finalize_sip_file` issues `os.makedirs` for the
`tissueMasks` export directory exactly when it does not exist, as the very
first call — before every `RawExport` — and leaves the directory alone when
it exists; every one of the 11 tissue-mask exports targets that directory. -/
theorem finalize_creates_export_dir (participant_id : Nat) (folder_location : String)
    (check_stage : Nat) (fs : String → Bool) :
    ((finalize_sip_file participant_id folder_location check_stage fs).filter Event.isMakeDirs
      = if fs (exportLocation participant_id folder_location) then []
        else [.makeDirs (exportLocation participant_id folder_location)])
    ∧ (fs (exportLocation participant_id folder_location) = false →
        (finalize_sip_file participant_id folder_location check_stage fs).head?
          = some (.makeDirs (exportLocation participant_id folder_location)))
    ∧ (∀ m ∈ masks,
        Event.rawExport (exportLocation participant_id folder_location ++ m ++ ".raw")
          ∈ finalize_sip_file participant_id folder_location check_stage fs) := by
  refine ⟨?_, ?_, ?_⟩
  · cases hex : fs (exportLocation participant_id folder_location) <;>
      simp [finalize_sip_file, hex, List.filter_append, colors_aprinda_no_makeDirs,
            remove_overlap_no_makeDirs, exportLoop_no_makeDirs, Event.isMakeDirs]
  · intro hex
    simp [finalize_sip_file, hex]
  · intro m hm
    cases hex : fs (exportLocation participant_id folder_location) <;>
      simp [finalize_sip_file, hex, List.mem_append, mem_exportLoop _ _ _ hm]

/-- Witness for C10: a file system without the export directory. -/
theorem finalize_creates_export_dir_witness :
    (fun (_ : String) => false) (exportLocation 999999 "C:\\") = false
    ∧ (finalize_sip_file 999999 "C:\\" 1 (fun _ => false)).head?
        = some (.makeDirs (exportLocation 999999 "C:\\"))
    ∧ Event.rawExport (exportLocation 999999 "C:\\" ++ "wm" ++ ".raw")
        ∈ finalize_sip_file 999999 "C:\\" 1 (fun _ => false) :=
  ⟨rfl,
   (finalize_creates_export_dir 999999 "C:\\" 1 (fun _ => false)).2.1 rfl,
   (finalize_creates_export_dir 999999 "C:\\" 1 (fun _ => false)).2.2 "wm" (by decide)⟩

/-- Claim C8: whenever a T1 is found, the trace of `generate_base_file` ends
with the `SaveAs` of the base `.sip` file immediately followed by the
notification message — so the save happens unconditionally (uniform and bone
may both be absent) and the missing-file notification comes only after it. -/
theorem generate_saves_before_notification (participant_id : Nat)
    (folder_location : String) (fs : String → Bool)
    (hT1 : fs (participantFolder participant_id folder_location ++ t1Name1 participant_id) = true
         ∨ fs (participantFolder participant_id folder_location ++ t1Name2) = true) :
    ∃ pre, generate_base_file participant_id folder_location fs
      = pre ++ [.saveAs (participantFolder participant_id folder_location
                  ++ "qualityCheck\\sipFiles\\" ++ toString participant_id ++ "_base.sip"),
                .showMessage (finalMessage
                  (uniformLookup (participantFolder participant_id folder_location) fs).1
                  (boneLookup (participantFolder participant_id folder_location) fs).1
                  participant_id)] := by
  obtain ⟨t1, ht1⟩ := findT1_some _ _ _ hT1
  refine ⟨[.importRawImage t1,
           .setBackgroundName "Raw import [W:0.00 L:0.00]" (toString participant_id ++ "_T1")]
          ++ tissueImportLoop (participantFolder participant_id folder_location
               ++ "Binarized_masks\\idv_mask\\") masks
          ++ colors_order_visibility "Sam"
          ++ (if (uniformLookup (participantFolder participant_id folder_location) fs).1 then
                import_mask "uniform"
                  (uniformLookup (participantFolder participant_id folder_location) fs).2
                ++ [.setMaskName "uniform_old" "uniform"]
              else [])
          ++ (if (boneLookup (participantFolder participant_id folder_location) fs).1 then
                import_mask "bone"
                  (boneLookup (participantFolder participant_id folder_location) fs).2
                ++ [.setMaskName "bone_old" "bone"]
                ++ bone_patching
                ++ (if (uniformLookup (participantFolder participant_id folder_location) fs).1 then
                      reorganizeBlock
                    else [])
              else []), ?_⟩
  simp [generate_base_file, ht1, message_box, List.append_assoc]

/-- Witness for C8: a file system holding only the resampled T1, so both the
uniform and the bone mask are absent and the save still happens, followed by
the both-missing notification. -/
theorem generate_saves_before_notification_witness :
    ∃ pre, generate_base_file 111111 "E:\\"
        (fun p => p == participantFolder 111111 "E:\\" ++ t1Name1 111111)
      = pre ++ [.saveAs (participantFolder 111111 "E:\\"
                  ++ "qualityCheck\\sipFiles\\" ++ toString 111111 ++ "_base.sip"),
                .showMessage (finalMessage
                  (uniformLookup (participantFolder 111111 "E:\\")
                    (fun p => p == participantFolder 111111 "E:\\" ++ t1Name1 111111)).1
                  (boneLookup (participantFolder 111111 "E:\\")
                    (fun p => p == participantFolder 111111 "E:\\" ++ t1Name1 111111)).1
                  111111)] :=
  generate_saves_before_notification 111111 "E:\\"
    (fun p => p == participantFolder 111111 "E:\\" ++ t1Name1 111111)
    (Or.inl (by decide))

/-! Helper lemmas for claim C5: locating the optional-import indicator events
inside the trace. -/

theorem setMaskName_not_mem_tissueImportLoop (a b l : String) (ms : List String) :
    Event.setMaskName a b ∉ tissueImportLoop l ms := by
  induction ms with
  | nil => simp [tissueImportLoop]
  | cons m rest ih => simp [tissueImportLoop, ih]

theorem setMaskName_not_mem_colors_sam (a b : String) :
    Event.setMaskName a b ∉ colors_order_visibility "Sam" := by
  simp [colors_order_visibility, colorsOrderLoop, masks]

theorem setMaskName_not_mem_import_mask (a b m l : String) :
    Event.setMaskName a b ∉ import_mask m l := by
  simp [import_mask]

theorem setMaskName_not_mem_reorganize (a b : String) :
    Event.setMaskName a b ∉ reorganizeBlock := by
  simp [reorganizeBlock]

theorem uniform_rename_not_mem_bone_patching :
    Event.setMaskName "uniform_old" "uniform" ∉ bone_patching := by decide

theorem bone_rename_not_mem_bone_patching :
    Event.setMaskName "bone_old" "bone" ∉ bone_patching := by decide

theorem unpatched_rename_mem_bone_patching :
    Event.setMaskName "Copy of bone" "unpatched_bone_regions" ∈ bone_patching := by decide

theorem mem_tissueImportLoop (l m : String) (ms : List String) (hm : m ∈ ms) :
    Event.importBackgroundFromRawImage (l ++ m ++ ".raw") ∈ tissueImportLoop l ms := by
  induction ms with
  | nil => cases hm
  | cons a rest ih =>
    rcases List.mem_cons.mp hm with h | h
    · subst h; simp [tissueImportLoop]
    · simp [tissueImportLoop, ih h]

/-- Claim C5: with a T1 present, `generate_base_file` imports the uniform
mask iff `uniform.raw` exists in `Binarized_masks\final\` or in
`Binarized_masks\` (final first, and from `final\` when both exist), imports
the bone mask under the same two-location final-first rule, runs
`bone_patching` iff a bone file was found, and imports the 11 tissue masks
unconditionally. -/
theorem generate_base_file_optional_imports (participant_id : Nat)
    (folder_location : String) (fs : String → Bool)
    (hT1 : fs (participantFolder participant_id folder_location ++ t1Name1 participant_id) = true
         ∨ fs (participantFolder participant_id folder_location ++ t1Name2) = true) :
    ((Event.setMaskName "uniform_old" "uniform"
        ∈ generate_base_file participant_id folder_location fs)
      ↔ (fs (participantFolder participant_id folder_location ++ "Binarized_masks\\final\\uniform.raw") = true
         ∨ fs (participantFolder participant_id folder_location ++ "Binarized_masks\\uniform.raw") = true))
    ∧ (fs (participantFolder participant_id folder_location ++ "Binarized_masks\\final\\uniform.raw") = true →
        Event.importBackgroundFromRawImage
            (participantFolder participant_id folder_location ++ "Binarized_masks\\final\\" ++ "uniform" ++ ".raw")
          ∈ generate_base_file participant_id folder_location fs)
    ∧ (fs (participantFolder participant_id folder_location ++ "Binarized_masks\\final\\uniform.raw") = false →
       fs (participantFolder participant_id folder_location ++ "Binarized_masks\\uniform.raw") = true →
        Event.importBackgroundFromRawImage
            (participantFolder participant_id folder_location ++ "Binarized_masks\\" ++ "uniform" ++ ".raw")
          ∈ generate_base_file participant_id folder_location fs)
    ∧ ((Event.setMaskName "bone_old" "bone"
        ∈ generate_base_file participant_id folder_location fs)
      ↔ (fs (participantFolder participant_id folder_location ++ "Binarized_masks\\final\\bone.raw") = true
         ∨ fs (participantFolder participant_id folder_location ++ "Binarized_masks\\bone.raw") = true))
    ∧ (fs (participantFolder participant_id folder_location ++ "Binarized_masks\\final\\bone.raw") = true →
        Event.importBackgroundFromRawImage
            (participantFolder participant_id folder_location ++ "Binarized_masks\\final\\" ++ "bone" ++ ".raw")
          ∈ generate_base_file participant_id folder_location fs)
    ∧ (fs (participantFolder participant_id folder_location ++ "Binarized_masks\\final\\bone.raw") = false →
       fs (participantFolder participant_id folder_location ++ "Binarized_masks\\bone.raw") = true →
        Event.importBackgroundFromRawImage
            (participantFolder participant_id folder_location ++ "Binarized_masks\\" ++ "bone" ++ ".raw")
          ∈ generate_base_file participant_id folder_location fs)
    ∧ ((Event.setMaskName "Copy of bone" "unpatched_bone_regions"
        ∈ generate_base_file participant_id folder_location fs)
      ↔ (fs (participantFolder participant_id folder_location ++ "Binarized_masks\\final\\bone.raw") = true
         ∨ fs (participantFolder participant_id folder_location ++ "Binarized_masks\\bone.raw") = true))
    ∧ (∀ m ∈ masks,
        Event.importBackgroundFromRawImage
            (participantFolder participant_id folder_location ++ "Binarized_masks\\idv_mask\\" ++ m ++ ".raw")
          ∈ generate_base_file participant_id folder_location fs) := by
  obtain ⟨t1, ht1⟩ := findT1_some _ _ _ hT1
  refine ⟨?_, ?_, ?_, ?_, ?_, ?_, ?_, ?_⟩
  · cases huf : fs (participantFolder participant_id folder_location ++ "Binarized_masks\\final\\uniform.raw") <;>
    cases hub : fs (participantFolder participant_id folder_location ++ "Binarized_masks\\uniform.raw") <;>
    cases hbf : fs (participantFolder participant_id folder_location ++ "Binarized_masks\\final\\bone.raw") <;>
    cases hbb : fs (participantFolder participant_id folder_location ++ "Binarized_masks\\bone.raw") <;>
      simp [generate_base_file, ht1, uniformLookup, boneLookup, huf, hub, hbf, hbb,
            List.mem_append, message_box, setMaskName_not_mem_tissueImportLoop,
            setMaskName_not_mem_colors_sam, setMaskName_not_mem_import_mask,
            setMaskName_not_mem_reorganize, uniform_rename_not_mem_bone_patching]
  · intro huf
    simp [generate_base_file, ht1, uniformLookup, huf, List.mem_append, import_mask]
  · intro huf hub
    simp [generate_base_file, ht1, uniformLookup, huf, hub, List.mem_append, import_mask]
  · cases huf : fs (participantFolder participant_id folder_location ++ "Binarized_masks\\final\\uniform.raw") <;>
    cases hub : fs (participantFolder participant_id folder_location ++ "Binarized_masks\\uniform.raw") <;>
    cases hbf : fs (participantFolder participant_id folder_location ++ "Binarized_masks\\final\\bone.raw") <;>
    cases hbb : fs (participantFolder participant_id folder_location ++ "Binarized_masks\\bone.raw") <;>
      simp [generate_base_file, ht1, uniformLookup, boneLookup, huf, hub, hbf, hbb,
            List.mem_append, message_box, setMaskName_not_mem_tissueImportLoop,
            setMaskName_not_mem_colors_sam, setMaskName_not_mem_import_mask,
            setMaskName_not_mem_reorganize, bone_rename_not_mem_bone_patching]
  · intro hbf
    cases huf : fs (participantFolder participant_id folder_location ++ "Binarized_masks\\final\\uniform.raw") <;>
    cases hub : fs (participantFolder participant_id folder_location ++ "Binarized_masks\\uniform.raw") <;>
      simp [generate_base_file, ht1, uniformLookup, boneLookup, huf, hub, hbf,
            List.mem_append, import_mask]
  · intro hbf hbb
    cases huf : fs (participantFolder participant_id folder_location ++ "Binarized_masks\\final\\uniform.raw") <;>
    cases hub : fs (participantFolder participant_id folder_location ++ "Binarized_masks\\uniform.raw") <;>
      simp [generate_base_file, ht1, uniformLookup, boneLookup, huf, hub, hbf, hbb,
            List.mem_append, import_mask]
  · cases huf : fs (participantFolder participant_id folder_location ++ "Binarized_masks\\final\\uniform.raw") <;>
    cases hub : fs (participantFolder participant_id folder_location ++ "Binarized_masks\\uniform.raw") <;>
    cases hbf : fs (participantFolder participant_id folder_location ++ "Binarized_masks\\final\\bone.raw") <;>
    cases hbb : fs (participantFolder participant_id folder_location ++ "Binarized_masks\\bone.raw") <;>
      simp [generate_base_file, ht1, uniformLookup, boneLookup, huf, hub, hbf, hbb,
            List.mem_append, message_box, setMaskName_not_mem_tissueImportLoop,
            setMaskName_not_mem_colors_sam, setMaskName_not_mem_import_mask,
            setMaskName_not_mem_reorganize, unpatched_rename_mem_bone_patching]
  · intro m hm
    have h := mem_tissueImportLoop
      (participantFolder participant_id folder_location ++ "Binarized_masks\\idv_mask\\") m masks hm
    simp [generate_base_file, ht1, List.mem_append, h]

/-- Witness for C5: a file system with every file present imports uniform,
runs `bone_patching`, and imports the tissue masks. -/
theorem generate_base_file_optional_imports_witness :
    (Event.setMaskName "uniform_old" "uniform"
        ∈ generate_base_file 222222 "F:\\" (fun _ => true))
    ∧ (Event.setMaskName "Copy of bone" "unpatched_bone_regions"
        ∈ generate_base_file 222222 "F:\\" (fun _ => true))
    ∧ (Event.importBackgroundFromRawImage
        (participantFolder 222222 "F:\\" ++ "Binarized_masks\\idv_mask\\" ++ "wm" ++ ".raw")
        ∈ generate_base_file 222222 "F:\\" (fun _ => true)) :=
  ⟨((generate_base_file_optional_imports 222222 "F:\\" (fun _ => true) (Or.inl rfl)).1).mpr
      (Or.inl rfl),
   ((generate_base_file_optional_imports 222222 "F:\\" (fun _ => true)
      (Or.inl rfl)).2.2.2.2.2.2.1).mpr (Or.inl rfl),
   (generate_base_file_optional_imports 222222 "F:\\" (fun _ => true)
      (Or.inl rfl)).2.2.2.2.2.2.2 "wm" (by decide)⟩

/-! Helper lemmas for claim C4: which calls go through the `sip` API. -/

theorem allSip_append {a b : List Event} (ha : AllSip a) (hb : AllSip b) :
    AllSip (a ++ b) := by
  intro e he
  rcases List.mem_append.mp he with h | h
  · exact ha e h
  · exact hb e h

theorem allSip_ite (c : Prop) [Decidable c] {a b : List Event}
    (ha : AllSip a) (hb : AllSip b) : AllSip (if c then a else b) := by
  by_cases h : c <;> simp [h] <;> assumption

theorem allSip_nil : AllSip [] := by
  intro e he
  cases he

theorem allSip_message_box (msg : String) : AllSip (message_box msg) := by
  intro e he
  simp [message_box] at he
  subst he
  rfl

theorem allSip_colorsOrderLoop (dict : List (String × (Nat × Nat × Nat)))
    (ms : List String) : AllSip (colorsOrderLoop dict ms) := by
  induction ms with
  | nil => exact allSip_nil
  | cons m rest ih =>
    intro e he
    rcases List.mem_append.mp he with h | h
    · simp at h
      rcases h with rfl | rfl | rfl | rfl <;> rfl
    · exact ih e h

theorem allSip_colors (color_palette : String) :
    AllSip (colors_order_visibility color_palette) := by
  by_cases h1 : color_palette = "Aprinda"
  · simpa [colors_order_visibility, h1] using allSip_colorsOrderLoop aprindaColorDict masks
  · by_cases h2 : color_palette = "Sam"
    · simpa [colors_order_visibility, h1, h2] using allSip_colorsOrderLoop samColorDict masks
    · simpa [colors_order_visibility, h1, h2] using
        allSip_append (allSip_message_box unrecognizedPaletteMsg)
          (allSip_colorsOrderLoop samColorDict masks)

theorem allSip_import_mask (mask location : String) :
    AllSip (import_mask mask location) := by
  intro e he
  simp [import_mask] at he
  rcases he with rfl | rfl | rfl | rfl <;> rfl

theorem allSip_bone_patching : AllSip bone_patching := by
  intro e he
  fin_cases he <;> rfl

theorem allSip_remove_overlap : AllSip remove_overlap := by
  intro e he
  fin_cases he <;> rfl

theorem allSip_reorganize : AllSip reorganizeBlock := by
  intro e he
  fin_cases he <;> rfl

theorem allSip_tissueImportLoop (l : String) (ms : List String) :
    AllSip (tissueImportLoop l ms) := by
  induction ms with
  | nil => exact allSip_nil
  | cons m rest ih =>
    intro e he
    rcases List.mem_append.mp he with h | h
    · simp at h
      rcases h with rfl | rfl | rfl | rfl <;> rfl
    · exact ih e h

theorem allSip_exportLoop (l : String) (ms : List String) :
    AllSip (exportLoop l ms) := by
  induction ms with
  | nil => exact allSip_nil
  | cons m rest ih =>
    intro e he
    rcases List.mem_append.mp he with h | h
    · simp at h
      rcases h with rfl | rfl | rfl <;> rfl
    · exact ih e h

theorem allSip_pair (x y : Event) (hx : x.isSipCall = true) (hy : y.isSipCall = true) :
    AllSip [x, y] := by
  intro e he
  simp at he
  rcases he with rfl | rfl <;> assumption

theorem allSip_generate_base_file (participant_id : Nat) (folder_location : String)
    (fs : String → Bool) : AllSip (generate_base_file participant_id folder_location fs) := by
  rcases hfind : findT1 (participantFolder participant_id folder_location) fs
      [t1Name1 participant_id, t1Name2] with _ | t1 <;>
    simp only [generate_base_file, hfind]
  · exact allSip_message_box _
  · refine allSip_append (allSip_append (allSip_append (allSip_append (allSip_append
      (allSip_append ?_ ?_) ?_) ?_) ?_) ?_) ?_
    · exact allSip_pair _ _ rfl rfl
    · exact allSip_tissueImportLoop _ _
    · exact allSip_colors _
    · refine allSip_ite _ (allSip_append ?_ ?_) allSip_nil
      · exact allSip_import_mask _ _
      · intro e he; simp at he; subst he; rfl
    · refine allSip_ite _ (allSip_append (allSip_append (allSip_append ?_ ?_) ?_) ?_) allSip_nil
      · exact allSip_import_mask _ _
      · intro e he; simp at he; subst he; rfl
      · exact allSip_bone_patching
      · exact allSip_ite _ allSip_reorganize allSip_nil
    · intro e he; simp at he; subst he; rfl
    · exact allSip_message_box _

theorem finalize_calls_characterized (participant_id : Nat) (folder_location : String)
    (check_stage : Nat) (fs : String → Bool) :
    ∀ e ∈ finalize_sip_file participant_id folder_location check_stage fs,
      e.isSipCall = true ∨ e = .makeDirs (exportLocation participant_id folder_location) := by
  intro e he
  simp only [finalize_sip_file] at he
  rcases List.mem_append.mp he with he | he
  · rcases List.mem_append.mp he with he | he
    · rcases List.mem_append.mp he with he | he
      · rcases List.mem_append.mp he with he | he
        · split at he
          · cases he
          · simp at he
            subst he
            right
            rfl
        · exact Or.inl (allSip_colors _ e he)
      · exact Or.inl (allSip_remove_overlap e he)
    · exact Or.inl (allSip_exportLoop _ _ e he)
  · simp at he
    subst he
    exact Or.inl rfl

/-- Counterexample to claim C4 as stated: at a concrete input,
`finalize_sip_file` issues an `os.makedirs` call, a file-system mutation that
does not go through the `sip` scripting interface. -/
theorem finalize_issues_non_sip_call :
    Event.makeDirs "C:\\FS6.0_sub-999999_ses01\\qualityCheck\\tissueMasks\\"
        ∈ finalize_sip_file 999999 "C:\\" 1 (fun _ => false)
    ∧ Event.isSipCall
        (Event.makeDirs "C:\\FS6.0_sub-999999_ses01\\qualityCheck\\tissueMasks\\") = false := by
  constructor
  · decide
  · rfl

/-- Claim C4, amended: every mutation of the file system or document state is
delegated to the `sip` scripting interface, with the single exception of the
`os.makedirs` call of `finalize_sip_file` creating the `tissueMasks` export
directory. -/
theorem all_mutations_via_sip (participant_id next_participant : Nat)
    (folder_location color_palette mask location : String)
    (check_stage : Nat) (fs : String → Bool) :
    AllSip verify_import
    ∧ AllSip (colors_order_visibility color_palette)
    ∧ AllSip (import_mask mask location)
    ∧ AllSip bone_patching
    ∧ AllSip remove_overlap
    ∧ AllSip (generate_base_file participant_id folder_location fs)
    ∧ (∀ e ∈ finalize_sip_file participant_id folder_location check_stage fs,
         e.isSipCall = true ∨ e = .makeDirs (exportLocation participant_id folder_location))
    ∧ AllSip (stop_start_visual_checks participant_id next_participant folder_location fs) := by
  refine ⟨allSip_message_box _, allSip_colors _, allSip_import_mask _ _,
          allSip_bone_patching, allSip_remove_overlap,
          allSip_generate_base_file _ _ _,
          finalize_calls_characterized _ _ _ _, ?_⟩
  unfold stop_start_visual_checks
  exact allSip_append (allSip_pair _ _ rfl rfl)
    (allSip_generate_base_file _ _ _)

/-- Witness for the amended C4 at a concrete input: the one non-`sip` call is
exactly the `os.makedirs` of the export directory. -/
theorem all_mutations_via_sip_witness :
    Event.isSipCall (Event.makeDirs (exportLocation 999999 "C:\\")) = true
    ∨ Event.makeDirs (exportLocation 999999 "C:\\")
        = Event.makeDirs (exportLocation 999999 "C:\\") :=
  (all_mutations_via_sip 999999 888888 "C:\\" "Sam" "wm" "loc" 1 (fun _ => false)).2.2.2.2.2.2.1
    (Event.makeDirs (exportLocation 999999 "C:\\")) (by decide)

end QualityCheck
